import Mathlib

/-!
Shallow embedding of `behave/matchers.py`: step matchers that match a step
definition (given as text) with step functions, extract typed arguments, and
report matching errors as deferred results.

External collaborators (the `parse`/`parse_type` pattern-compilation engines,
the `re` regular-expression engine, the file-location utilities) are treated
as black boxes, exactly as the module's own boundary does: a compile function
maps a pattern string and the converter registry to a parser value, a parser
maps step text to a structured result or nothing, and a compiled regular
expression maps step text to a match object carrying group texts and spans.
Python exceptions are modelled by an explicit error type, `try/except` by
`Except`, the module-level mutable globals (`ParseMatcher.custom_types`,
`current_matcher`) by an explicit state record threaded through the
operations that read or write them.
-/

namespace Behave

/-- A converted argument value, as produced by a type converter or taken
verbatim from the matched text.  `pyNone` models Python `None` (an
unmatched regex group yields `None`). -/
inductive Value where
  | str (s : String)
  | int (i : Int)
  | pyNone
  deriving DecidableEq, Repr

/-- Python exceptions that the matching code raises or catches: `AssertionError`
(from the `assert` in `RegexMatcher.__init__`), `KeyError` (from the
`matcher_mapping[name]` lookup in `use_step_matcher`), `ValueError` (the
documented error for type-converter parse failures) and arbitrary other
exceptions raised by converters or the engine (caught alike by the broad
`except Exception` in `Matcher.match`). -/
inductive PyError where
  | assertionError (msg : String)
  | keyError (key : String)
  | valueError (msg : String)
  | userError (msg : String)
  deriving DecidableEq, Repr

/-- Python `six.text_type(e)` / `str(e)` for the modelled exceptions; `str` of a
`KeyError` shows the `repr` of the key, the others show their message. -/
def PyError.text : PyError → String
  | .assertionError msg => msg
  | .keyError key => "'" ++ key ++ "'"
  | .valueError msg => msg
  | .userError msg => msg

/-- Python `behave.model_core.FileLocation`: a `filename:line` pair (the relative-path
computation of `os.path.relpath` is a pure renaming and is not modelled). -/
structure FileLocation where
  filename : String
  line : Nat
  deriving DecidableEq, Repr

/-- A step function: Python compares functions by identity and reads their code
object for the location, so a function is modelled by its name together with
the code metadata (`co_filename`, `co_firstlineno`) that
`Match.make_location` reads. -/
structure StepFunc where
  name : String
  filename : String
  line : Nat
  deriving DecidableEq, Repr

/-- Python `Match.make_location`: builds the `FileLocation` from the step function's
code object. -/
def Match.make_location (f : StepFunc) : FileLocation :=
  { filename := f.filename, line := f.line }

/-- Python `behave.model_core.Argument`: one matched span of the step text with its
raw text, converted value and optional field name.  Offsets are integers
because Python's `re` reports span `(-1, -1)` for a capture group that did
not participate in the match. -/
structure Argument where
  start : Int
  stop : Int
  original : Value
  value : Value
  name : Option String
  deriving DecidableEq, Repr

-- ---------------------------------------------------------------------------
-- String helpers (Python string primitives used by the module)
-- ---------------------------------------------------------------------------

/-- Python `str.startswith` on explicit character lists. -/
def listBegins : List Char → List Char → Bool
  | [], _ => true
  | _ :: _, [] => false
  | a :: as, b :: bs => a = b && listBegins as bs

/-- Python `s.startswith(p)`. -/
def strBegins (s p : String) : Bool := listBegins p.data s.data

/-- Python `s.endswith(p)`. -/
def strEnds (s p : String) : Bool := listBegins p.data.reverse s.data.reverse

/-- Python slicing `s[a:b]` for the non-negative spans the engines report. -/
def strSlice (s : String) (a b : Int) : String :=
  String.mk ((s.data.drop a.toNat).take (b.toNat - a.toNat))

/-- Python percent-formatting restricted to pure text-insertion directives,
which is all the describe schemas use: each directive in the format string
consumes the next argument in order. -/
def formatS : List Char → List String → List Char
  | '%' :: 's' :: rest, a :: args => a.data ++ formatS rest args
  | c :: rest, args => c :: formatS rest args
  | [], _ => []

/-- Python `schema % (a, b, ...)` for text-only schemas. -/
def pyFormat (schema : String) (args : List String) : String :=
  String.mk (formatS schema.data args)

-- ---------------------------------------------------------------------------
-- SECTION: Exceptions (`StepParseError`)
-- ---------------------------------------------------------------------------

/-- A constructed `StepParseError` object: its message text and its chained
cause (`__cause__`, set via `ChainedExceptionUtil.set_cause`, PEP 3134). -/
structure StepParseErrorObj where
  text : Option String
  cause : Option PyError
  deriving DecidableEq, Repr

/-- Python `StepParseError.__init__(text=None, exc_cause=None)` on Python 3: when
`text` is falsy (None or empty) and a cause is given, the text becomes
`six.text_type(exc_cause)`; the Python-2-only `CAUSED-BY` suffix branch is
dead on Python 3 and not modelled; the cause is chained onto the
exception. -/
def StepParseError.make (text : Option String) (exc_cause : Option PyError) :
    StepParseErrorObj :=
  let textFalsy : Bool :=
    match text with
    | none => true
    | some t => t = ""
  let text1 :=
    if textFalsy && exc_cause.isSome then exc_cause.map PyError.text else text
  { text := text1, cause := exc_cause }

-- ---------------------------------------------------------------------------
-- SECTION: Model Elements (`Match`, `MatchWithError`, result of `match`)
-- ---------------------------------------------------------------------------

/-- The fields of a `Match` object that `Match.__eq__` and `Match.run` read:
the bound function (nullable — `NoMatch` has none), the extracted
arguments, and the location (derived from the function by `__init__`, but
mutable state in Python, hence a plain field here). -/
structure MatchObj where
  func : Option StepFunc
  arguments : List Argument
  location : Option FileLocation

/-- An arbitrary Python value compared against a `Match` by `__eq__`: either
another `Match` instance or any non-`Match` value (represented by a tag). -/
inductive PyObj where
  | matchObj (m : MatchObj)
  | nonMatch (tag : String)

/-- Python `Match.__eq__`: `False` for any non-`Match` operand, otherwise equality of
the `(func, location)` pairs; the `arguments` field is never consulted. -/
def MatchObj.eq (self : MatchObj) (other : PyObj) : Bool :=
  match other with
  | .nonMatch _ => false
  | .matchObj o => decide ((self.func, self.location) = (o.func, o.location))

/-- The result of `Matcher.match`, as seen by the caller: a plain `Match`
wrapping the function and the extracted arguments, or a `MatchWithError`
wrapping the function and the exception caught during `check_match`.
(`Matcher.match` returns Python `None` on no-match, modelled by `Option`.) -/
inductive MatchResult where
  | matched (func : StepFunc) (arguments : List Argument)
  | matchWithError (func : StepFunc) (stored_error : PyError)
  deriving DecidableEq, Repr

/-- What invoking a match result's `run(context)` does: either the step
function is called with the positional and keyword arguments assembled from
the extracted `Argument`s, or a `StepParseError` is raised (the
`MatchWithError.run` path) and the function is never called. -/
inductive RunOutcome where
  | called (func : StepFunc) (args : List Value) (kwargs : List (String × Value))
  | raised (e : StepParseErrorObj)
  deriving Repr

/-- Is the step function invoked by this outcome? -/
def RunOutcome.callsFunc : RunOutcome → Bool
  | .called _ _ _ => true
  | .raised _ => false

/-- Python `kwargs[name] = value`: overwrite an existing key, else append. -/
def kwSet (d : List (String × Value)) (k : String) (v : Value) :
    List (String × Value) :=
  match d with
  | [] => [(k, v)]
  | (a, b) :: rest => if a = k then (a, v) :: rest else (a, b) :: kwSet rest k v

/-- The argument assembly loop of `Match.run`: named arguments go to `kwargs`,
unnamed ones are appended to `args` in order. -/
def Match.buildCallArgs (arguments : List Argument) :
    List Value × List (String × Value) :=
  arguments.foldl
    (fun acc arg =>
      match arg.name with
      | some n => (acc.1, kwSet acc.2 n arg.value)
      | none => (acc.1 ++ [arg.value], acc.2))
    ([], [])

/-- Python `run(context)` on a match result.  `Match.run` calls the step function with
the assembled arguments (inside the executor's scoped user-mode hook, which
is external); `MatchWithError.run` raises a `StepParseError` chained to the
stored error and never touches the function. -/
def MatchResult.run : MatchResult → RunOutcome
  | .matched func arguments =>
      let built := Match.buildCallArgs arguments
      .called func built.1 built.2
  | .matchWithError _ stored_error =>
      .raised (StepParseError.make none (some stored_error))

-- ---------------------------------------------------------------------------
-- SECTION: Matchers — the generic `Matcher.match` wrapper
-- ---------------------------------------------------------------------------

/-- Python `Matcher.match(step)`: runs `check_match` under a broad `try/except`.  The
argument is the outcome of `check_match` — an exception, a `None`
(no-match), or an argument list — and the result is the caller-visible
value: a `MatchWithError`, Python `None`, or a `Match`. -/
def Matcher.matchOutcome (func : StepFunc)
    (check : Except PyError (Option (List Argument))) : Option MatchResult :=
  match check with
  | .error e => some (.matchWithError func e)
  | .ok none => none
  | .ok (some result) => some (.matched func result)

-- ---------------------------------------------------------------------------
-- SECTION: Global state (converter registry, current matcher class)
-- ---------------------------------------------------------------------------

/-- A type converter, following the `parse` module rules: text in, converted
value out, raising (`ValueError` on parse errors, or anything else) on
failure. -/
def Converter := String → Except PyError Value

/-- The three matcher classes stored in `matcher_mapping` and in
`current_matcher`. -/
inductive MatcherClass where
  | parseCls
  | cfparseCls
  | reCls
  deriving DecidableEq, Repr

/-- The module-level mutable globals: the class attribute
`ParseMatcher.custom_types` (the converter registry) and the module global
`current_matcher`.  Python mutates them in place; the model threads this
record explicitly through the operations that read or write it. -/
structure GlobalState where
  custom_types : List (String × Converter)
  current_matcher : MatcherClass

/-- Python `dict.__setitem__`: overwrite an existing key, else append. -/
def dictSet (d : List (String × Converter)) (k : String) (v : Converter) :
    List (String × Converter) :=
  match d with
  | [] => [(k, v)]
  | (a, b) :: rest =>
      if a = k then (a, v) :: rest else (a, b) :: dictSet rest k v

/-- Python `dict.update(kw)`: set every pair of `kw` in order (later wins). -/
def dictUpdate (d kw : List (String × Converter)) :
    List (String × Converter) :=
  kw.foldl (fun acc p => dictSet acc p.1 p.2) d

/-- Python `register_type(**kw)`: `ParseMatcher.custom_types.update(kw)` — a purely
additive/overwriting update of the converter registry; nothing else in the
state is touched. -/
def register_type (kw : List (String × Converter)) (st : GlobalState) :
    GlobalState :=
  { st with custom_types := dictUpdate st.custom_types kw }

/-- The initial state: `ParseMatcher.custom_types = {}` and
`current_matcher = ParseMatcher`. -/
def initialState : GlobalState :=
  { custom_types := [], current_matcher := .parseCls }

-- ---------------------------------------------------------------------------
-- SECTION: Matcher base fields and `describe`
-- ---------------------------------------------------------------------------

/-- The `Matcher` base-class fields set by `Matcher.__init__`: the step
function, the pattern string, and the optional step type. -/
structure MatcherData where
  func : StepFunc
  string : String
  step_type : Option String

/-- The class attribute `Matcher.schema`, the default describe schema. -/
def Matcher.schema : String := "@%s('%s')"

/-- Truthiness of an optional string (`None` and the empty string are falsy). -/
def optStrFalsy : Option String → Bool
  | none => true
  | some t => t = ""

/-- Python `Matcher.describe(schema=None)`: the step type defaults to the literal
word for a generic step when `self.step_type` is falsy, the schema defaults
to `Matcher.schema` when the argument is falsy, and the result is the
schema percent-formatted with `(step_type, self.string)`. -/
def Matcher.describe (m : MatcherData) (schema : Option String) : String :=
  let step_type :=
    match m.step_type with
    | some t => if t = "" then "step" else t
    | none => "step"
  let schema1 :=
    match schema with
    | some s => if s = "" then Matcher.schema else s
    | none => Matcher.schema
  pyFormat schema1 [step_type, m.string]

-- ---------------------------------------------------------------------------
-- SECTION: ParseMatcher / CFParseMatcher
-- ---------------------------------------------------------------------------

/-- The structured result the `parse`/`cfparse` engine reports for a
successful parse: the positional fields (`result.fixed`) and the named
fields (`result.named`), each together with its span from `result.spans`
(the engine keys spans by the same index or name as the field). -/
structure ParseFixedField where
  value : Value
  start : Int
  stop : Int

structure ParseNamedField where
  name : String
  value : Value
  start : Int
  stop : Int

structure ParseResult where
  fixed : List ParseFixedField
  named : List ParseNamedField

/-- A compiled parser, the black-box value `parse.compile(...)` returns:
applied to step text it raises, reports no match, or reports a structured
result. -/
def ParserFn := String → Except PyError (Option ParseResult)

/-- A pattern-compilation engine: `parse.compile(string, custom_types)` or
`parse_type.cfparse.Parser(string, custom_types)`, consuming the pattern
and the converter registry contents and returning a parser value. -/
def CompileFn := String → List (String × Converter) → ParserFn

/-- The fields of a constructed `ParseMatcher` (or `CFParseMatcher` — the
subclass differs only in which engine compiled `self.parser`). -/
structure ParseMatcherObj where
  func : StepFunc
  string : String
  step_type : Option String
  parser : ParserFn

/-- Python `ParseMatcher.__init__`: stores the base fields and compiles the pattern
with the engine against the registry contents of the construction-time
state — the snapshot the later theorems are about. -/
def ParseMatcher.make (compileFn : CompileFn) (func : StepFunc)
    (string : String) (step_type : Option String) (st : GlobalState) :
    ParseMatcherObj :=
  { func := func, string := string, step_type := step_type,
    parser := compileFn string st.custom_types }

/-- Python `CFParseMatcher.__init__`: runs the parent initializer (compiling with the
`parse` engine) and then replaces `self.parser` with the `cfparse`
engine's parser for the same pattern and registry contents. -/
def CFParseMatcher.make (parseCompile cfparseCompile : CompileFn)
    (func : StepFunc) (string : String) (step_type : Option String)
    (st : GlobalState) : ParseMatcherObj :=
  let base := ParseMatcher.make parseCompile func string step_type st
  { base with parser := cfparseCompile string st.custom_types }

/-- The comparison `args.sort(key=lambda x: x.start)` sorts by. -/
def argStartLE (a b : Argument) : Prop := a.start ≤ b.start

instance : DecidableRel argStartLE := fun a b => Int.decLe a.start b.start

instance : IsTotal Argument argStartLE := ⟨fun a b => Int.le_total a.start b.start⟩

instance : IsTrans Argument argStartLE := ⟨fun _ _ _ => Int.le_trans⟩

/-- Python `args.sort(key=lambda x: x.start)`: a stable sort by start offset. -/
def sortArgsByStart (args : List Argument) : List Argument :=
  args.insertionSort argStartLE

/-- The argument-building loop of `ParseMatcher.check_match`: one `Argument`
per positional field (name `None`), then one per named field, each with the
engine-reported span, the raw slice of the step text at that span, and the
converted value; finally the explicit sort by start offset. -/
def ParseMatcher.buildArgs (step : String) (r : ParseResult) : List Argument :=
  let fixedArgs := r.fixed.map fun f =>
    Argument.mk f.start f.stop (.str (strSlice step f.start f.stop)) f.value none
  let namedArgs := r.named.map fun f =>
    Argument.mk f.start f.stop (.str (strSlice step f.start f.stop)) f.value
      (some f.name)
  sortArgsByStart (fixedArgs ++ namedArgs)

/-- Python `ParseMatcher.check_match(step)`: run the compiled parser (type conversion
may raise here), report no-match as `None`, otherwise build the sorted
argument list. -/
def ParseMatcherObj.check_match (m : ParseMatcherObj) (step : String) :
    Except PyError (Option (List Argument)) :=
  match m.parser step with
  | .error e => .error e
  | .ok none => .ok none
  | .ok (some r) => .ok (some (ParseMatcher.buildArgs step r))

/-- Python `match(step)` on a `ParseMatcher`: the inherited `Matcher.match` wrapper
around this class's `check_match`. -/
def ParseMatcherObj.runMatch (m : ParseMatcherObj) (step : String) :
    Option MatchResult :=
  Matcher.matchOutcome m.func (m.check_match step)

-- ---------------------------------------------------------------------------
-- SECTION: RegexMatcher
-- ---------------------------------------------------------------------------

/-- One capture group of a regex match object: `m.group(i)` (None when the
group did not participate) and the span `(m.start(i), m.end(i))` (both
`-1` for a non-participating group). -/
structure ReGroup where
  text : Option String
  start : Int
  stop : Int
  deriving DecidableEq, Repr

/-- A regex match object restricted to what `check_match` reads: the tuple
`m.groups()` together with each group's span. -/
structure ReMatch where
  groups : List ReGroup
  deriving DecidableEq, Repr

/-- A compiled regular expression, the black-box value `re.compile(...)`
returns: the name-to-index table `groupindex` and the matching function
`.match` (full-text match or nothing; regex matching itself raises no
exceptions). -/
structure CompiledRegex where
  groupindex : List (String × Nat)
  matchFn : String → Option ReMatch

/-- The `Value` of a possibly-`None` captured group text. -/
def Value.ofOptStr : Option String → Value
  | none => .pyNone
  | some s => .str s

/-- The fields of a constructed `RegexMatcher`. -/
structure RegexMatcherObj where
  func : StepFunc
  string : String
  step_type : Option String
  regex : CompiledRegex

/-- Python `RegexMatcher.__init__`: asserts that the supplied pattern carries no
explicit begin/end anchor (raising `AssertionError` with a descriptive
message otherwise), then compiles the anchored expression built by
wrapping the pattern between the two anchor characters. -/
def RegexMatcher.make (recompile : String → CompiledRegex) (func : StepFunc)
    (string : String) (step_type : Option String) :
    Except PyError RegexMatcherObj :=
  if strBegins string "^" || strEnds string "$" then
    .error (.assertionError
      ("Regular expression should not use begin/end-markers: " ++ string))
  else
    .ok { func := func, string := string, step_type := step_type,
          regex := recompile ("^" ++ string ++ "$") }

/-- Python `dict((y, x) for x, y in groupindex.items())`: invert name→index into
index→name. -/
def invertGroupIndex (gi : List (String × Nat)) : List (Nat × String) :=
  gi.map fun p => (p.2, p.1)

/-- Python `groupindex.get(index, None)` on the inverted table. -/
def lookupNat (inv : List (Nat × String)) (k : Nat) : Option String :=
  match inv with
  | [] => none
  | (a, v) :: rest => if a = k then some v else lookupNat rest k

/-- The loop of `RegexMatcher.check_match`: one `Argument` per numbered group,
in group order starting at index 1, with the group's span, its captured
text as both raw text and value, and the declared name (if any) resolved
through the inverted `groupindex`. -/
def RegexMatcher.buildArgs (inv : List (Nat × String)) (index : Nat) :
    List ReGroup → List Argument
  | [] => []
  | g :: gs =>
      Argument.mk g.start g.stop (.ofOptStr g.text) (.ofOptStr g.text)
        (lookupNat inv index) :: RegexMatcher.buildArgs inv (index + 1) gs

/-- Python `RegexMatcher.check_match(step)` applied to the engine's answer for the
step text: `None` when the anchored expression did not match, otherwise
the argument list built from the numbered groups. -/
def RegexMatcher.check_matchOn (groupindex : List (String × Nat))
    (m : Option ReMatch) : Option (List Argument) :=
  match m with
  | none => none
  | some mm =>
      some (RegexMatcher.buildArgs (invertGroupIndex groupindex) 1 mm.groups)

/-- Python `RegexMatcher.check_match(step)`: run the compiled expression on the step
text and convert its answer. -/
def RegexMatcherObj.check_match (m : RegexMatcherObj) (step : String) :
    Option (List Argument) :=
  RegexMatcher.check_matchOn m.regex.groupindex (m.regex.matchFn step)

/-- Python `match(step)` on a `RegexMatcher`: the inherited `Matcher.match` wrapper
(regex `check_match` raises nothing, so the check outcome is always `ok`). -/
def RegexMatcherObj.runMatch (m : RegexMatcherObj) (step : String) :
    Option MatchResult :=
  Matcher.matchOutcome m.func (.ok (m.check_match step))

-- ---------------------------------------------------------------------------
-- SECTION: Matcher selection (`matcher_mapping`, `use_step_matcher`,
-- `get_matcher`)
-- ---------------------------------------------------------------------------

/-- The fixed strategy table `matcher_mapping`. -/
def matcher_mapping : List (String × MatcherClass) :=
  [("parse", .parseCls), ("cfparse", .cfparseCls), ("re", .reCls)]

/-- Python `dict[name]` on the strategy table (first — and only — binding of
the name, since the keys are distinct). -/
def mappingLookup (m : List (String × MatcherClass)) (k : String) :
    Option MatcherClass :=
  match m with
  | [] => none
  | (a, v) :: rest => if k = a then some v else mappingLookup rest k

/-- Python `use_step_matcher(name)`: `current_matcher = matcher_mapping[name]` — an
unknown name raises `KeyError(name)` before any assignment happens, a known
name overwrites only the `current_matcher` global. -/
def use_step_matcher (name : String) (st : GlobalState) :
    Except PyError GlobalState :=
  match mappingLookup matcher_mapping name with
  | some cls => .ok { st with current_matcher := cls }
  | none => .error (.keyError name)

/-- A matcher object built by the factory, tagged by its class. -/
inductive MatcherObj where
  | parseM (m : ParseMatcherObj)
  | cfparseM (m : ParseMatcherObj)
  | regexM (m : RegexMatcherObj)

/-- The class a constructed matcher belongs to. -/
def MatcherObj.cls : MatcherObj → MatcherClass
  | .parseM _ => .parseCls
  | .cfparseM _ => .cfparseCls
  | .regexM _ => .reCls

/-- Python `match(step)` on any constructed matcher, given the global state at match
time.  Faithful to the source, `check_match` reads only `self` — the
compiled parser or expression stored at construction — so the state
argument is never consulted; stating the signature with the state makes
that frame property expressible. -/
def MatcherObj.matchIn (mo : MatcherObj) (st : GlobalState) (step : String) :
    Option MatchResult :=
  match mo, st with
  | .parseM m, _ => m.runMatch step
  | .cfparseM m, _ => m.runMatch step
  | .regexM m, _ => m.runMatch step

/-- Python `get_matcher(func, string)`: `current_matcher(func, string)` — builds a
matcher of the class currently selected in the state, with no step type.
The engines' compile functions are the factory's black-box dependencies. -/
def get_matcher (pc cfc : CompileFn) (rc : String → CompiledRegex)
    (func : StepFunc) (string : String) (st : GlobalState) :
    Except PyError MatcherObj :=
  match st.current_matcher with
  | .parseCls => .ok (.parseM (ParseMatcher.make pc func string none st))
  | .cfparseCls => .ok (.cfparseM (CFParseMatcher.make pc cfc func string none st))
  | .reCls => (RegexMatcher.make rc func string none).map .regexM

-- ---------------------------------------------------------------------------
-- SECTION: Helper predicates and engine stand-ins used by witnesses
-- ---------------------------------------------------------------------------

/-- Boolean check of the ordering invariant: the start offsets of the
arguments are non-decreasing from first to last. -/
def startsNonDecB : List Argument → Bool
  | [] => true
  | [_] => true
  | a :: b :: rest => decide (a.start ≤ b.start) && startsNonDecB (b :: rest)

/-- Boolean check that the regex engine reported its group start offsets in
non-decreasing order. -/
def groupStartsNonDecB : List ReGroup → Bool
  | [] => true
  | [_] => true
  | g :: g2 :: rest => decide (g.start ≤ g2.start) && groupStartsNonDecB (g2 :: rest)

/-- A parser that never matches: the simplest engine answer. -/
def trivialParserFn : ParserFn := fun _ => .ok none

/-- A compile function returning `trivialParserFn` for every pattern. -/
def trivialCompile : CompileFn := fun _ _ => trivialParserFn

/-- A regex-compile function returning an expression with no groups that never
matches. -/
def trivialRecompile : String → CompiledRegex := fun _ => ⟨[], fun _ => none⟩

/-- A concrete step function for the concrete instantiations. -/
def sampleFunc : StepFunc := ⟨"step_impl", "steps.py", 10⟩

theorem startsNonDecB_of_sorted :
    ∀ {l : List Argument}, l.Sorted argStartLE → startsNonDecB l = true := by
  intro l h
  induction l with
  | nil => rfl
  | cons a t ih =>
    cases t with
    | nil => rfl
    | cons b r =>
      rw [List.sorted_cons] at h
      have hab : argStartLE a b := h.1 b (List.mem_cons_self b r)
      have ht := ih h.2
      simp [startsNonDecB, ht]
      exact hab

theorem sortArgsByStart_sorted (l : List Argument) :
    (sortArgsByStart l).Sorted argStartLE :=
  List.sorted_insertionSort argStartLE l

theorem regex_buildArgs_startsNonDec (inv : List (Nat × String)) (idx : Nat)
    (gs : List ReGroup) :
    startsNonDecB (RegexMatcher.buildArgs inv idx gs) = groupStartsNonDecB gs := by
  induction gs generalizing idx with
  | nil => rfl
  | cons g t ih =>
    cases t with
    | nil => rfl
    | cons g2 r =>
      have h2 := ih (idx + 1)
      rw [RegexMatcher.buildArgs, RegexMatcher.buildArgs]
      rw [RegexMatcher.buildArgs] at h2
      rw [startsNonDecB, groupStartsNonDecB, h2]

theorem regex_buildArgs_length (inv : List (Nat × String)) (idx : Nat)
    (gs : List ReGroup) :
    (RegexMatcher.buildArgs inv idx gs).length = gs.length := by
  induction gs generalizing idx with
  | nil => rfl
  | cons g t ih => simp [RegexMatcher.buildArgs, ih]

theorem regex_buildArgs_get (inv : List (Nat × String)) (idx : Nat)
    (gs : List ReGroup) :
    ∀ (i : Nat) (h1 : i < (RegexMatcher.buildArgs inv idx gs).length)
      (h2 : i < gs.length),
      (RegexMatcher.buildArgs inv idx gs).get ⟨i, h1⟩ =
        { start := (gs.get ⟨i, h2⟩).start, stop := (gs.get ⟨i, h2⟩).stop,
          original := .ofOptStr (gs.get ⟨i, h2⟩).text,
          value := .ofOptStr (gs.get ⟨i, h2⟩).text,
          name := lookupNat inv (idx + i) } := by
  induction gs generalizing idx with
  | nil => intro i _ h2; exact absurd h2 (Nat.not_lt_zero i)
  | cons g t ih =>
    intro i h1 h2
    cases i with
    | zero => simp [RegexMatcher.buildArgs]
    | succ j =>
      have hj1 : j < (RegexMatcher.buildArgs inv (idx + 1) t).length := by
        have := h1
        simp [RegexMatcher.buildArgs] at this
        simpa [regex_buildArgs_length] using this
      have hj2 : j < t.length := Nat.lt_of_succ_lt_succ h2
      have step : (RegexMatcher.buildArgs inv idx (g :: t)).get ⟨j + 1, h1⟩ =
          (RegexMatcher.buildArgs inv (idx + 1) t).get ⟨j, hj1⟩ := by
        simp [RegexMatcher.buildArgs]
      rw [step, ih (idx + 1) j hj1 hj2]
      have harith : idx + 1 + j = idx + (j + 1) := by omega
      simp [harith]

-- ---------------------------------------------------------------------------
-- SECTION: Claims
-- ---------------------------------------------------------------------------

/-- Claim C1: matching a step is total and never raises to the caller — if
`check_match` raises `e`, `match` returns a `MatchWithError` carrying the
step function and `e`; if `check_match` reports no match, `match` returns
the top-level `None` result; otherwise `match` returns a `Match` wrapping
the function and the extracted arguments.  Both concrete strategies route
their `match` through this wrapper. -/
theorem claim_C1 :
    (∀ (func : StepFunc) (e : PyError),
      Matcher.matchOutcome func (.error e) = some (.matchWithError func e)) ∧
    (∀ (func : StepFunc), Matcher.matchOutcome func (.ok none) = none) ∧
    (∀ (func : StepFunc) (args : List Argument),
      Matcher.matchOutcome func (.ok (some args)) = some (.matched func args)) ∧
    (∀ (m : ParseMatcherObj) (step : String),
      m.runMatch step = Matcher.matchOutcome m.func (m.check_match step)) ∧
    (∀ (m : RegexMatcherObj) (step : String),
      m.runMatch step = Matcher.matchOutcome m.func (.ok (m.check_match step))) :=
  ⟨fun _ _ => rfl, fun _ => rfl, fun _ _ => rfl, fun _ _ => rfl, fun _ _ => rfl⟩

/-- Claim C3: a `ParseMatcher` or `CFParseMatcher` snapshots the converter
registry at construction time (its stored parser is the engine's compile
of the pattern against the construction-time registry contents), so a
later `register_type` leaves an already-constructed matcher's `match`
results unchanged for every step text. -/
theorem claim_C3 (parseC cfparseC : CompileFn) (f : StepFunc) (s : String)
    (ty : Option String) (st : GlobalState) (kw : List (String × Converter))
    (step : String) :
    ((MatcherObj.parseM (ParseMatcher.make parseC f s ty st)).matchIn
        (register_type kw st) step =
      (MatcherObj.parseM (ParseMatcher.make parseC f s ty st)).matchIn st step) ∧
    ((MatcherObj.cfparseM (CFParseMatcher.make parseC cfparseC f s ty st)).matchIn
        (register_type kw st) step =
      (MatcherObj.cfparseM (CFParseMatcher.make parseC cfparseC f s ty st)).matchIn
        st step) ∧
    ((ParseMatcher.make parseC f s ty st).parser = parseC s st.custom_types) ∧
    ((CFParseMatcher.make parseC cfparseC f s ty st).parser =
      cfparseC s st.custom_types) :=
  ⟨rfl, rfl, rfl, rfl⟩

/-- Claim C4: invoking a `MatchWithError` never calls the stored step function
and instead raises a `StepParseError` whose chained cause is the original
stored error (and whose message text is the text of that cause). -/
theorem claim_C4 (f : StepFunc) (e : PyError) :
    (MatchResult.run (.matchWithError f e) =
      .raised { text := some (PyError.text e), cause := some e }) ∧
    ((MatchResult.run (.matchWithError f e)).callsFunc = false) ∧
    ((StepParseError.make none (some e)).cause = some e) :=
  ⟨rfl, rfl, rfl⟩

/-- Claim C10: `Match.__eq__` compares exactly the `(func, location)` pairs —
it ignores the extracted arguments entirely — and comparing against any
non-`Match` value returns `False` rather than raising. -/
theorem claim_C10 :
    (∀ (a b : MatchObj),
      MatchObj.eq a (.matchObj b) = true ↔
        (a.func = b.func ∧ a.location = b.location)) ∧
    (∀ (a b : MatchObj) (args args2 : List Argument),
      MatchObj.eq { a with arguments := args }
          (.matchObj { b with arguments := args2 }) =
        MatchObj.eq a (.matchObj b)) ∧
    (∀ (a : MatchObj) (tag : String), MatchObj.eq a (.nonMatch tag) = false) := by
  refine ⟨fun a b => ?_, fun a b args args2 => rfl, fun a tag => rfl⟩
  simp [MatchObj.eq, Prod.ext_iff]

/-- Claim C10 witness: two matches of the same function and location with
different argument lists compare equal; a non-`Match` operand compares
unequal. -/
theorem claim_C10_witness :
    MatchObj.eq ⟨some sampleFunc, [], some ⟨"steps.py", 10⟩⟩
        (.matchObj ⟨some sampleFunc, [⟨0, 1, .str "a", .str "a", none⟩],
          some ⟨"steps.py", 10⟩⟩) = true ∧
    MatchObj.eq ⟨some sampleFunc, [], some ⟨"steps.py", 10⟩⟩
        (.nonMatch "int") = false :=
  ⟨(claim_C10.1 _ _).mpr ⟨rfl, rfl⟩, claim_C10.2.2 _ _⟩

/-- Claim C8: `use_step_matcher` with a name outside the fixed set
`parse`/`cfparse`/`re` fails with a `KeyError` identifying the unknown name
(and, raising before any assignment, leaves the current strategy
unchanged); with a valid name it succeeds and sets only the process-wide
current strategy to the corresponding class. -/
theorem claim_C8 (name : String) (st : GlobalState) :
    (name ≠ "parse" → name ≠ "cfparse" → name ≠ "re" →
      use_step_matcher name st = .error (.keyError name)) ∧
    (use_step_matcher "parse" st = .ok { st with current_matcher := .parseCls }) ∧
    (use_step_matcher "cfparse" st =
      .ok { st with current_matcher := .cfparseCls }) ∧
    (use_step_matcher "re" st = .ok { st with current_matcher := .reCls }) := by
  refine ⟨fun h1 h2 h3 => ?_, rfl, rfl, rfl⟩
  simp [use_step_matcher, matcher_mapping, mappingLookup, h1, h2, h3]

/-- Claim C8 witness: the unknown strategy name fails with a `KeyError`
carrying that name. -/
theorem claim_C8_witness :
    use_step_matcher "regex" initialState = .error (.keyError "regex") :=
  (claim_C8 "regex" initialState).1 (by decide) (by decide) (by decide)

/-- Claim C5: constructing a `RegexMatcher` whose pattern begins with the caret
anchor or ends with the dollar anchor fails at construction time with the
descriptive assertion message naming the pattern; any other pattern is
compiled as the anchored expression obtained by wrapping it between the
two anchors. -/
theorem claim_C5 (rc : String → CompiledRegex) (f : StepFunc) (s : String)
    (ty : Option String) :
    ((strBegins s "^" || strEnds s "$") = true →
      RegexMatcher.make rc f s ty = .error (.assertionError
        ("Regular expression should not use begin/end-markers: " ++ s))) ∧
    ((strBegins s "^" || strEnds s "$") = false →
      RegexMatcher.make rc f s ty =
        .ok { func := f, string := s, step_type := ty,
              regex := rc ("^" ++ s ++ "$") }) := by
  constructor <;> intro h <;> simp [RegexMatcher.make, h]

/-- Claim C5 witness: a caret-anchored pattern is rejected at construction, a
plain pattern is compiled anchored. -/
theorem claim_C5_witness :
    (RegexMatcher.make trivialRecompile sampleFunc "^bad" none =
      .error (.assertionError
        ("Regular expression should not use begin/end-markers: " ++ "^bad"))) ∧
    (RegexMatcher.make trivialRecompile sampleFunc "rain" none =
      .ok { func := sampleFunc, string := "rain", step_type := none,
            regex := trivialRecompile ("^" ++ "rain" ++ "$") }) :=
  ⟨(claim_C5 trivialRecompile sampleFunc "^bad" none).1 (by decide),
   (claim_C5 trivialRecompile sampleFunc "rain" none).2 (by decide)⟩

/-- Claim C7: the factory `get_matcher` reads the current strategy at
construction time — a successfully built matcher belongs to the class
selected in the construction-time state — and an already-constructed
matcher's match behavior never consults the global state, so any later
strategy selection leaves it unchanged. -/
theorem claim_C7 :
    (∀ (pc cfc : CompileFn) (rc : String → CompiledRegex) (f : StepFunc)
      (s : String) (st : GlobalState) (mo : MatcherObj),
      get_matcher pc cfc rc f s st = .ok mo → mo.cls = st.current_matcher) ∧
    (∀ (mo : MatcherObj) (st st2 : GlobalState) (step : String),
      mo.matchIn st2 step = mo.matchIn st step) := by
  constructor
  · intro pc cfc rc f s st mo hok
    cases hcm : st.current_matcher <;> rw [get_matcher, hcm] at hok
    · cases hok; rfl
    · cases hok; rfl
    · cases hmk : RegexMatcher.make rc f s none <;> rw [hmk] at hok
      · simp [Except.map] at hok
      · simp [Except.map] at hok
        rw [← hok]
        rfl
  · intro mo st st2 step
    cases mo <;> rfl

/-- Claim C7 witness: in the initial state the factory builds a matcher of the
initially selected class, and a later strategy selection does not change
an existing matcher's match result. -/
theorem claim_C7_witness :
    ((MatcherObj.parseM
        (ParseMatcher.make trivialCompile sampleFunc "s" none initialState)).cls =
      initialState.current_matcher) ∧
    ((MatcherObj.parseM
        (ParseMatcher.make trivialCompile sampleFunc "s" none initialState)).matchIn
        { initialState with current_matcher := .reCls } "x" =
      (MatcherObj.parseM
        (ParseMatcher.make trivialCompile sampleFunc "s" none initialState)).matchIn
        initialState "x") :=
  ⟨claim_C7.1 trivialCompile trivialCompile trivialRecompile sampleFunc "s"
      initialState _ rfl,
   claim_C7.2 _ initialState _ "x"⟩

/-- Claim C2 counterexample: the claim fails for `RegexMatcher`.  For the
matcher built from pattern `(?:(a)|(b))` — anchored to `^(?:(a)|(b))$` —
matched against the step text `a`, Python's `re` reports group 1 with span
`(0, 1)` and the non-participating group 2 with text `None` and span
`(-1, -1)`; `check_match` therefore produces an argument sequence whose
start offsets are `0` followed by `-1`, which is decreasing. -/
theorem claim_C2_counterexample :
    RegexMatcher.check_matchOn []
        (some { groups := [⟨some "a", 0, 1⟩, ⟨none, -1, -1⟩] }) =
      some [⟨0, 1, .str "a", .str "a", none⟩,
            ⟨-1, -1, .pyNone, .pyNone, none⟩] ∧
    startsNonDecB [⟨0, 1, .str "a", .str "a", none⟩,
                   ⟨-1, -1, .pyNone, .pyNone, none⟩] = false := by
  constructor
  · rfl
  · decide

/-- Claim C2 amended: `ParseMatcher` and `CFParseMatcher` always produce
argument sequences whose start offsets are non-decreasing (their
`check_match` ends with an explicit sort by start); `RegexMatcher` copies
the engine's group spans in group-index order, so its argument starts are
non-decreasing exactly when the engine reported non-decreasing group start
offsets — which holds for ordinary left-to-right participating groups but
not for non-participating or lookahead groups. -/
theorem claim_C2_amended :
    (∀ (step : String) (r : ParseResult),
      startsNonDecB (ParseMatcher.buildArgs step r) = true) ∧
    (∀ (gi : List (String × Nat)) (mm : ReMatch) (args : List Argument),
      RegexMatcher.check_matchOn gi (some mm) = some args →
      groupStartsNonDecB mm.groups = true → startsNonDecB args = true) := by
  constructor
  · intro step r
    exact startsNonDecB_of_sorted (sortArgsByStart_sorted _)
  · intro gi mm args hres hgs
    have : args = RegexMatcher.buildArgs (invertGroupIndex gi) 1 mm.groups := by
      simpa [RegexMatcher.check_matchOn] using hres.symm
    rw [this, regex_buildArgs_startsNonDec]
    exact hgs

/-- Claim C2 amended witness: a parse result with a named field before a fixed
field comes out sorted, and a regex match whose engine spans ascend yields
ascending argument starts. -/
theorem claim_C2_amended_witness :
    startsNonDecB (ParseMatcher.buildArgs "5 of 9"
        ⟨[⟨.int 9, 5, 6⟩], [⟨"amount", .int 5, 0, 1⟩]⟩) = true ∧
    startsNonDecB [⟨0, 1, .str "3", .str "3", some "n"⟩] = true :=
  ⟨claim_C2_amended.1 "5 of 9" ⟨[⟨.int 9, 5, 6⟩], [⟨"amount", .int 5, 0, 1⟩]⟩,
   claim_C2_amended.2 [("n", 1)] { groups := [⟨some "3", 0, 1⟩] } _ rfl (by decide)⟩

/-- Claim C6: for a regex match, each numbered capture group yields exactly one
`Argument` — argument `i` (zero-based, group number `i + 1`) carries the
group's reported span as start/stop, the captured text unchanged as both
raw text and value (no type conversion), and as name the group's declared
name resolved through the inverted `groupindex` table, or nothing when the
group is unnamed. -/
theorem claim_C6 (gi : List (String × Nat)) (mm : ReMatch)
    (args : List Argument)
    (hres : RegexMatcher.check_matchOn gi (some mm) = some args) :
    args.length = mm.groups.length ∧
    ∀ (i : Nat) (h1 : i < args.length) (h2 : i < mm.groups.length),
      args.get ⟨i, h1⟩ =
        { start := (mm.groups.get ⟨i, h2⟩).start,
          stop := (mm.groups.get ⟨i, h2⟩).stop,
          original := .ofOptStr (mm.groups.get ⟨i, h2⟩).text,
          value := .ofOptStr (mm.groups.get ⟨i, h2⟩).text,
          name := lookupNat (invertGroupIndex gi) (i + 1) } := by
  have hargs : args = RegexMatcher.buildArgs (invertGroupIndex gi) 1 mm.groups := by
    simpa [RegexMatcher.check_matchOn] using hres.symm
  subst hargs
  refine ⟨regex_buildArgs_length _ _ _, fun i h1 h2 => ?_⟩
  rw [regex_buildArgs_get (invertGroupIndex gi) 1 mm.groups i h1 h2]
  have : 1 + i = i + 1 := Nat.add_comm 1 i
  rw [this]

/-- Claim C6 witness: the regex scenario — pattern with one named group `n`
capturing a digit run, step text `3 cats`; the engine reports group 1 with
text `3` and span `(0, 1)`, and `check_match` yields exactly one argument
named `n` whose value is the untouched string `3`. -/
theorem claim_C6_witness :
    (RegexMatcher.check_matchOn [("n", 1)] (some { groups := [⟨some "3", 0, 1⟩] }) =
      some [⟨0, 1, .str "3", .str "3", some "n"⟩]) ∧
    ([(⟨0, 1, .str "3", .str "3", some "n"⟩ : Argument)].length = 1) ∧
    ([(⟨0, 1, .str "3", .str "3", some "n"⟩ : Argument)].get ⟨0, by decide⟩ =
      { start := 0, stop := 1, original := .str "3", value := .str "3",
        name := some "n" }) := by
  have h := claim_C6 [("n", 1)] { groups := [⟨some "3", 0, 1⟩] }
    [⟨0, 1, .str "3", .str "3", some "n"⟩] rfl
  exact ⟨rfl, h.1, (h.2 0 (by decide) (by decide)).trans (by decide)⟩

theorem format_default (T P : String) :
    pyFormat Matcher.schema [T, P] = "@" ++ T ++ "('" ++ P ++ "')" := by
  have key : formatS Matcher.schema.data [T, P] =
      '@' :: (T.data ++
        ('(' :: Char.ofNat 39 :: (P.data ++ [Char.ofNat 39, ')']))) := rfl
  apply String.ext
  show formatS Matcher.schema.data [T, P] =
    ("@" ++ T ++ "('" ++ P ++ "')").data
  rw [key]
  cases T with
  | mk td =>
    cases P with
    | mk pd =>
      show _ = ((("@".data ++ td) ++ "('".data) ++ pd) ++ "')".data
      simp

/-- Claim C9 counterexample: the claim fails in two truthiness corners of
`describe`.  First, a matcher built with pattern `P` and the empty string
as step type has a non-null step type, yet `describe()` renders the
default word `step` (the code tests truthiness, not nullness), not the
empty step type the claimed schema instantiation would produce.  Second, a
caller-supplied empty schema is a supplied schema, yet it is not used:
the default schema is applied instead of formatting with the empty
schema (which would render the empty string). -/
theorem claim_C9_counterexample :
    (Matcher.describe ⟨sampleFunc, "P", some ""⟩ none = "@step('P')" ∧
      ("@step('P')" : String) ≠ "@('P')") ∧
    (Matcher.describe ⟨sampleFunc, "P", some "given"⟩ (some "") = "@given('P')" ∧
      ("@given('P')" : String) ≠ pyFormat "" ["given", "P"]) := by
  exact ⟨⟨rfl, by decide⟩, ⟨rfl, by decide⟩⟩

/-- Claim C9 amended: for every Matcher built with pattern `P` and a non-null,
non-empty step type `T`, `describe()` without a schema returns exactly the
default rendering of `T` and `P` (at-sign, step type, the pattern quoted
in parentheses), which contains `P` and `T` verbatim; with a null or an
empty step type it returns that rendering with the word `step` in place
of the step type; a caller-supplied non-empty schema with two insertion
points is used instead when given (the result is that schema
percent-formatted with `(T, P)`); a caller-supplied empty schema is not
used and falls back to the default rendering. -/
theorem claim_C9_amended :
    (∀ (f : StepFunc) (P T : String), T ≠ "" →
      Matcher.describe ⟨f, P, some T⟩ none = "@" ++ T ++ "('" ++ P ++ "')") ∧
    (∀ (f : StepFunc) (P : String),
      Matcher.describe ⟨f, P, some ""⟩ none =
        "@" ++ "step" ++ "('" ++ P ++ "')") ∧
    (∀ (f : StepFunc) (P : String),
      Matcher.describe ⟨f, P, none⟩ none =
        "@" ++ "step" ++ "('" ++ P ++ "')") ∧
    (∀ (f : StepFunc) (P T s : String), T ≠ "" → s ≠ "" →
      Matcher.describe ⟨f, P, some T⟩ (some s) = pyFormat s [T, P]) ∧
    (∀ (f : StepFunc) (P T : String), T ≠ "" →
      Matcher.describe ⟨f, P, some T⟩ (some "") =
        "@" ++ T ++ "('" ++ P ++ "')") := by
  refine ⟨fun f P T hT => ?_, fun f P => ?_, fun f P => ?_,
    fun f P T s hT hs => ?_, fun f P T hT => ?_⟩
  · rw [Matcher.describe]
    simp only [hT, if_false]
    exact format_default T P
  · exact format_default "step" P
  · exact format_default "step" P
  · rw [Matcher.describe]
    simp [hT, hs]
  · rw [Matcher.describe]
    simp only [hT, if_false]
    exact format_default T P

/-- Claim C9 amended witness: a matcher with step type `given` and pattern
`rain` describes as the default rendering of those two strings; a
non-empty two-slot schema is formatted with them instead; an empty schema
falls back to the default rendering. -/
theorem claim_C9_amended_witness :
    (Matcher.describe ⟨sampleFunc, "rain", some "given"⟩ none =
      "@" ++ "given" ++ "('" ++ "rain" ++ "')") ∧
    (Matcher.describe ⟨sampleFunc, "rain", some "given"⟩ (some "%s has %s") =
      pyFormat "%s has %s" ["given", "rain"]) ∧
    (Matcher.describe ⟨sampleFunc, "rain", some "given"⟩ (some "") =
      "@" ++ "given" ++ "('" ++ "rain" ++ "')") :=
  ⟨claim_C9_amended.1 sampleFunc "rain" "given" (by decide),
   claim_C9_amended.2.2.2.1 sampleFunc "rain" "given" "%s has %s"
     (by decide) (by decide),
   claim_C9_amended.2.2.2.2 sampleFunc "rain" "given" (by decide)⟩

end Behave
